import Mathlib

/-!
Shallow embedding of the constraint-resolution core of the engine repository:
the Distance constraint (src/constraints/Distance.js) and the contact-manifold
subsystem (src/constraints/collision/ContactManifold.js).

Modelling conventions:
* JS numbers are modelled as exact rationals (ℚ).  The float literals `0.25`,
  `1.5` and `20.0` are exactly representable; `0.15` is modelled by the exact
  decimal value 15/100.
* The external famous-math `Vec3` collaborator is modelled by componentwise
  rational 3-vector arithmetic (add, subtract, scale, dot, cross, invert);
  mutation of shared scratch registers is modelled by value flow.
* `v.length()` (a square root, irrational in general) never needs to be
  computed exactly: every comparison `length() OP t` with `t ≥ 0` is modelled
  by the equivalent `normSq OP t²`, and where `Distance.update` consumes the
  scalar `separation = diffP.length()` the embedding takes that scalar as an
  explicit argument `sep` (theorems may constrain it by `sep² = normSq diffP`).
* Fallible JS behaviour (reading an undeclared identifier, calling a method on
  `null`) is modelled with `Except JsError`.
* JS sparse-array writes `a[i] = v` are modelled by `jsSet` (padding holes with
  `none`); reads `a[i]` by `jsGet` (out-of-range reads give `none`).  The
  two-level `collisionMatrix` is modelled as a total function
  `ℕ → ℕ → Option ℕ`; JS `undefined` and `null` entries are merged into
  `none`, which is faithful because every read in the source goes through
  `== null`, which identifies the two.
-/

structure Vec3 where
  x : ℚ
  y : ℚ
  z : ℚ
deriving DecidableEq

def Vec3.zero : Vec3 := ⟨0, 0, 0⟩

def Vec3.add (v w : Vec3) : Vec3 := ⟨v.x + w.x, v.y + w.y, v.z + w.z⟩

def Vec3.subtract (v w : Vec3) : Vec3 := ⟨v.x - w.x, v.y - w.y, v.z - w.z⟩

def Vec3.scale (v : Vec3) (s : ℚ) : Vec3 := ⟨v.x * s, v.y * s, v.z * s⟩

def Vec3.dot (v w : Vec3) : ℚ := v.x * w.x + v.y * w.y + v.z * w.z

def Vec3.cross (v w : Vec3) : Vec3 :=
  ⟨v.y * w.z - v.z * w.y, v.z * w.x - v.x * w.z, v.x * w.y - v.y * w.x⟩

def Vec3.invert (v : Vec3) : Vec3 := ⟨-v.x, -v.y, -v.z⟩

def Vec3.normSq (v : Vec3) : ℚ := v.x * v.x + v.y * v.y + v.z * v.z

/-- ContactManifold.js lines 23-25: clamp a value to a range. -/
def clamp (value lower upper : ℚ) : ℚ :=
  if value < lower then lower else if value > upper then upper else value

/-- The per-contact geometry produced by the external collision detector
(spec §3 CollisionData): unit normal, the contact point as a local offset in
each body's frame, the two world-frame contact points cached at detection
time, and the penetration depth. -/
structure CollisionData where
  normal : Vec3
  localContactA : Vec3
  localContactB : Vec3
  worldContactA : Vec3
  worldContactB : Vec3
  penetration : ℚ
deriving DecidableEq

/-- The dynamic state of a body that `Contact.resolve` / `Contact.update`
read: linear and angular velocity.  Impulse application
(`applyImpulse` / `applyAngularImpulse`) belongs to the external Body
collaborator; the embedding records the applied impulses instead of mutating
a body. -/
structure BodyDyn where
  velocity : Vec3
  angularVelocity : Vec3
deriving DecidableEq

/-- Contact (ContactManifold.js lines 356-370): cached collision data, the
tangent basis and effective masses computed by `init`, the cached restitution
and friction coefficients, the velocity bias set by `update`, the three scalar
impulse accumulators and the three vector impulse accumulators used for warm
starting.  `Contact.resolve` and `Contact.update` never recompute the `init`
fields, so the embedding treats them as state. -/
structure Contact where
  data : CollisionData
  tangent1 : Vec3
  tangent2 : Vec3
  effNormalMass : ℚ
  effTangentialMass1 : ℚ
  effTangentialMass2 : ℚ
  restitution : ℚ
  friction : ℚ
  velocityBias : ℚ
  normalImpulse : ℚ
  tangentImpulse1 : ℚ
  tangentImpulse2 : ℚ
  impulse : Vec3
  angImpulseA : Vec3
  angImpulseB : Vec3
deriving DecidableEq

/-- The four impulses one `Contact.resolve` (or `Contact.update` warm-start)
pass applies, in application order: linear to bodyB, angular to bodyB,
linear to bodyA, angular to bodyA. -/
structure AppliedImpulses where
  linB : Vec3
  angB : Vec3
  linA : Vec3
  angA : Vec3
deriving DecidableEq

/-- ContactManifold.js lines 513-515 (and the identical lines 464-466):
relative velocity of the two bodies at the contact point,
`(vB + wB × rB) - (vA + wA × rA)`. -/
def contactRelVel (c : Contact) (bodyA bodyB : BodyDyn) : Vec3 :=
  let vb1 := Vec3.add bodyA.velocity (Vec3.cross bodyA.angularVelocity c.data.localContactA)
  let vb2 := Vec3.add bodyB.velocity (Vec3.cross bodyB.angularVelocity c.data.localContactB)
  Vec3.subtract vb2 vb1

/-- ContactManifold.js line 467: the relative speed along the contact normal. -/
def contactSpeedOf (c : Contact) (bodyA bodyB : BodyDyn) : ℚ :=
  Vec3.dot (contactRelVel c bodyA bodyB) c.data.normal

/-- Contact.prototype.resolve (ContactManifold.js lines 501-553).  Returns the
new contact state and the impulses applied to the bodies.  Note the source
inverts the shared `impulse` register before `this.impulse.add(impulse)`, so
the vector accumulator accumulates the bodyA-side (negated) linear impulse. -/
def Contact.resolve (c : Contact) (bodyA bodyB : BodyDyn) : Contact × AppliedImpulses :=
  let relativeVelocity := contactRelVel c bodyA bodyB
  let normalLambda := -(Vec3.dot relativeVelocity c.data.normal + c.velocityBias) * c.effNormalMass
  let newNormalImpulse := max (c.normalImpulse + normalLambda) 0
  let normalLambda' := newNormalImpulse - c.normalImpulse
  let maxFriction := c.friction * newNormalImpulse
  let tangentLambda1 := -(Vec3.dot relativeVelocity c.tangent1) * c.effTangentialMass1
  let newTangentImpulse1 := clamp (c.tangentImpulse1 + tangentLambda1) (-maxFriction) maxFriction
  let tangentLambda1' := newTangentImpulse1 - c.tangentImpulse1
  let tangentLambda2 := -(Vec3.dot relativeVelocity c.tangent2) * c.effTangentialMass2
  let newTangentImpulse2 := clamp (c.tangentImpulse2 + tangentLambda2) (-maxFriction) maxFriction
  let tangentLambda2' := newTangentImpulse2 - c.tangentImpulse2
  let impulse :=
    Vec3.add
      (Vec3.add (Vec3.scale c.data.normal normalLambda') (Vec3.scale c.tangent1 tangentLambda1'))
      (Vec3.scale c.tangent2 tangentLambda2')
  let angImpulseB := Vec3.cross c.data.localContactB impulse
  let angImpulseA := Vec3.invert (Vec3.cross c.data.localContactA impulse)
  ({ c with
      normalImpulse := newNormalImpulse
      tangentImpulse1 := newTangentImpulse1
      tangentImpulse2 := newTangentImpulse2
      impulse := Vec3.add c.impulse (Vec3.invert impulse)
      angImpulseA := Vec3.add c.angImpulseA angImpulseA
      angImpulseB := Vec3.add c.angImpulseB angImpulseB },
   { linB := impulse, angB := angImpulseB, linA := Vec3.invert impulse, angA := angImpulseA })

/-- Contact.prototype.update (ContactManifold.js lines 454-494): restitution
floor, Baumgarte bias, quarter warm start, accumulator reset.  Returns the new
contact state and the warm-start impulses applied to the bodies. -/
def Contact.update (c : Contact) (bodyA bodyB : BodyDyn) (dt : ℚ) : Contact × AppliedImpulses :=
  let contactSpeed := contactSpeedOf c bodyA bodyB
  let beta : ℚ := 15 / 100
  let slop : ℚ := 3 / 2
  let velocityTolerance : ℚ := 20
  let restitution := if |contactSpeed| < velocityTolerance then 0 else c.restitution
  let velocityBias := (-beta) * max (c.data.penetration - slop) 0 / dt + restitution * contactSpeed
  let impulse := Vec3.scale c.impulse (1 / 4)
  let angImpulseA := Vec3.scale c.angImpulseA (1 / 4)
  let angImpulseB := Vec3.scale c.angImpulseB (1 / 4)
  ({ c with
      velocityBias := velocityBias
      normalImpulse := 0
      tangentImpulse1 := 0
      tangentImpulse2 := 0
      impulse := Vec3.zero
      angImpulseA := Vec3.zero
      angImpulseB := Vec3.zero },
   { linB := impulse, angB := angImpulseB, linA := Vec3.invert impulse, angA := angImpulseA })

/-- A sequence of `Contact.resolve` passes; each element supplies the body
velocities the pass reads (between passes the outer engine may have changed
them arbitrarily, which only strengthens the theorems quantifying over the
sequence). -/
def Contact.resolveSeq (c : Contact) : List (BodyDyn × BodyDyn) → Contact
  | [] => c
  | s :: rest => Contact.resolveSeq (Contact.resolve c s.1 s.2).1 rest

/-- Distance constraint state (Distance.js lines 23-52): configuration
(`length`, `minLength`, `period`, `dampingRatio`, derived `stiffness` and
`damping`) and the per-step cached solver state (`impulse`, `distance`,
`normal`, `velocityBias`, `divisor`). -/
structure DistanceState where
  length : ℚ
  minLength : ℚ
  period : ℚ
  dampingRatio : ℚ
  stiffness : ℚ
  damping : ℚ
  impulse : ℚ
  distance : ℚ
  velocityBias : ℚ
  divisor : ℚ
  normal : Vec3
deriving DecidableEq

/-- Runtime errors the embedded JS can raise: reading an undeclared
identifier, or calling a method on a null value. -/
inductive JsError where
  | referenceError
  | typeError
deriving DecidableEq

/-- Distance.prototype.update (Distance.js lines 61-115).  `sep` is the value
of `diffP.length()` (see the module comment); `p1, w1` and `p2, w2` are the
positions and inverse masses of bodies a and b.  `globalPeriod` is the binding
of the free identifier `period` read at line 90: the source writes
`if (period === 0)` rather than `if (this.period === 0)`, and no declaration
of `period` exists anywhere in the repository, so under the file's
`'use strict'` the read throws a ReferenceError, modelled by the `none` case.
On success the result is the new state together with the warm-start impulse
pair (applied to b, applied to a). -/
def Distance.update (globalPeriod : Option ℚ) (dt : ℚ) (sep : ℚ)
    (st : DistanceState) (p1 p2 : Vec3) (w1 w2 : ℚ) :
    Except JsError (DistanceState × (Vec3 × Vec3)) :=
  let diffP := Vec3.subtract p2 p1
  let n := Vec3.scale diffP (1 / sep)
  let dist := sep - st.length
  let invEffectiveMass := w1 + w2
  let effectiveMass := 1 / invEffectiveMass
  match globalPeriod with
  | none => Except.error JsError.referenceError
  | some period =>
    let gb : ℚ × ℚ :=
      if period = 0 then (0, 1)
      else
        let c := st.damping * effectiveMass
        let k := st.stiffness * effectiveMass
        (1 / (dt * (c + dt * k)), dt * k / (c + dt * k))
    let baumgarte := gb.2 * dist / dt
    let divisor := gb.1 + invEffectiveMass
    let lambda := st.impulse
    let impulse := Vec3.scale n lambda
    Except.ok
      ({ st with
          normal := n
          distance := dist
          velocityBias := baumgarte
          divisor := divisor
          impulse := 0 },
       (impulse, Vec3.invert impulse))

/-- Distance.prototype.resolve (Distance.js lines 122-146).  `v1, v2` are the
bodies' current velocities.  Returns the new state and, unless the slack-zone
guard returns early, the impulse pair (applied to b, applied to a). -/
def Distance.resolve (st : DistanceState) (v1 v2 : Vec3) :
    DistanceState × Option (Vec3 × Vec3) :=
  if |st.distance| < st.minLength then (st, none)
  else
    let diffV := Vec3.subtract v2 v1
    let lambda := -(Vec3.dot st.normal diffV + st.velocityBias) / st.divisor
    let impulse := Vec3.scale st.normal lambda
    ({ st with impulse := st.impulse + lambda }, some (impulse, Vec3.invert impulse))

/-- JS sparse-array read `a[i]`: `none` when the slot is out of range, a hole,
or holds null. -/
def jsGet {α : Type} : List (Option α) → ℕ → Option α
  | [], _ => none
  | o :: _, 0 => o
  | _ :: rest, i + 1 => jsGet rest i

/-- JS array write `a[i] = v`, padding any gap with holes. -/
def jsSet {α : Type} : List (Option α) → ℕ → Option α → List (Option α)
  | [], 0, v => [v]
  | [], i + 1, v => none :: jsSet [] i v
  | _ :: rest, 0, v => v :: rest
  | o :: rest, i + 1, v => o :: jsSet rest i v

/-- Number of live (non-null) entries of a JS array of object slots. -/
def liveCountN {α : Type} (l : List (Option α)) : ℕ := l.countP Option.isSome

/-- A body as the manifold table sees it: its stable identifier `_ID` and its
position (used by Manifold.update).  Velocities and masses are read only at
the Contact solver level. -/
structure BodyRef where
  id : ℕ
  position : Vec3
deriving DecidableEq

/-- A pooled Contact object as Manifold-level code sees it: its collision
data, plus an identity tag `cid` modelling JS object identity.  The solver
fields (tangent basis, effective masses, accumulators) computed by
`Contact.init` are never read by `addContact`, `removeContact`, `contains` or
`Manifold.update`, so they are not tracked at this level. -/
structure MContact where
  cid : ℕ
  data : CollisionData
deriving DecidableEq

/-- Manifold (ContactManifold.js lines 193-204): canonical ID pair, the two
bodies, the fixed-capacity contact array, the live-contact count and the LRU
write cursor. -/
structure ManifoldState where
  lowID : ℕ
  highID : ℕ
  bodyA : BodyRef
  bodyB : BodyRef
  contacts : List (Option MContact)
  numContacts : ℤ
  lru : ℕ
deriving DecidableEq

/-- ContactManifold.js line 183. -/
def THRESHOLD : ℚ := 10

/-- Manifold.prototype.reset (lines 213-226). -/
def Manifold.reset (lowID highID : ℕ) (bodyA bodyB : BodyRef) : ManifoldState :=
  { lowID := lowID, highID := highID, bodyA := bodyA, bodyB := bodyB,
    contacts := [], numContacts := 0, lru := 0 }

/-- Manifold.prototype.removeContact (lines 251-258): null the slot, decrement
the count.  Freeing the contact and its data back to the pool is an external
effect; callers that need it record the freed contact themselves. -/
def Manifold.removeContact (m : ManifoldState) (i : ℕ) : ManifoldState :=
  { m with contacts := jsSet m.contacts i none, numContacts := m.numContacts - 1 }

/-- Manifold.prototype.addContact (lines 236-242): write into the current LRU
cursor slot, first removing (evicting and freeing) any contact already there,
then advance the cursor modulo 4 and bump the count.  The freshly pooled
`OMRequestContact().reset(...)` object is the argument `c`.  Returns the new
state and the evicted occupant, if any. -/
def Manifold.addContact (m : ManifoldState) (c : MContact) : ManifoldState × Option MContact :=
  let index := m.lru
  let evicted := jsGet m.contacts index
  let m1 := match evicted with
    | some _ => Manifold.removeContact m index
    | none => m
  ({ m1 with
      contacts := jsSet m1.contacts index (some c)
      lru := (index + 1) % 4
      numContacts := m1.numContacts + 1 }, evicted)

/-- The near-duplicate test of Manifold.prototype.contains (line 280): either
cached world point of an existing contact is within THRESHOLD of the
candidate's.  `dist < 10 ↔ dist² < 100` for the nonnegative `length()`. -/
def containsMatch (d : CollisionData) (c : MContact) : Prop :=
  Vec3.normSq (Vec3.subtract c.data.worldContactA d.worldContactA) < THRESHOLD * THRESHOLD ∨
  Vec3.normSq (Vec3.subtract c.data.worldContactB d.worldContactB) < THRESHOLD * THRESHOLD

instance (d : CollisionData) (c : MContact) : Decidable (containsMatch d c) := by
  unfold containsMatch; infer_instance

/-- The scan of Manifold.prototype.contains (lines 273-284): index of the
first live contact matching the candidate data, scanning upward from `i`. -/
def findMatchIdx (d : CollisionData) : List (Option MContact) → ℕ → Option ℕ
  | [], _ => none
  | none :: rest, i => findMatchIdx d rest (i + 1)
  | some c :: rest, i => if containsMatch d c then some i else findMatchIdx d rest (i + 1)

/-- Manifold.prototype.contains (lines 268-287): remove the first
near-duplicate contact, reporting whether one was found. -/
def Manifold.contains (m : ManifoldState) (d : CollisionData) : ManifoldState × Bool :=
  match findMatchIdx d m.contacts 0 with
  | some i => (Manifold.removeContact m i, true)
  | none => (m, false)

/-- The removal condition of Manifold.prototype.update (lines 316-325): the
current world position of the contact on each body is recomputed as body
position plus local offset; the contact is removed when the cached world
point has drifted at least THRESHOLD from the recomputed one in either
body's frame (`length() >= 10 ↔ normSq ≥ 100`), or when the separation along
the normal is non-penetrating (strictly positive dot). -/
def contactShouldRemove (posA posB : Vec3) (c : MContact) : Prop :=
  let wA := Vec3.add posA c.data.localContactA
  let wB := Vec3.add posB c.data.localContactB
  THRESHOLD * THRESHOLD ≤ Vec3.normSq (Vec3.subtract c.data.worldContactA wA) ∨
  THRESHOLD * THRESHOLD ≤ Vec3.normSq (Vec3.subtract c.data.worldContactB wB) ∨
  0 < Vec3.dot (Vec3.subtract wB wA) c.data.normal

instance (posA posB : Vec3) (c : MContact) : Decidable (contactShouldRemove posA posB c) := by
  unfold contactShouldRemove; infer_instance

/-- The loop of Manifold.prototype.update (lines 305-328): null every slot
whose contact meets the removal condition; also count the removals (the
source performs the count as `numContacts--` inside removeContact). -/
def updateContactsLoop (posA posB : Vec3) :
    List (Option MContact) → List (Option MContact) × ℕ
  | [] => ([], 0)
  | none :: rest =>
      let r := updateContactsLoop posA posB rest
      (none :: r.1, r.2)
  | some c :: rest =>
      let r := updateContactsLoop posA posB rest
      if contactShouldRemove posA posB c then (none :: r.1, r.2 + 1) else (some c :: r.1, r.2)

/-- Manifold.prototype.update (lines 297-332).  Returns the new state and
whether the manifold persists (`numContacts` truthy, i.e. nonzero). -/
def Manifold.update (m : ManifoldState) : ManifoldState × Bool :=
  let r := updateContactsLoop m.bodyA.position m.bodyB.position m.contacts
  let m' := { m with contacts := r.1, numContacts := m.numContacts - (r.2 : ℤ) }
  (m', decide (m'.numContacts ≠ 0))

/-- ContactManifoldTable state (lines 48-52): the manifold slot array, the
two-level sparse matrix from canonical ID pairs to slot indices, and the
free-list of recycled slot indices. -/
structure TableState where
  manifolds : List (Option ManifoldState)
  collisionMatrix : ℕ → ℕ → Option ℕ
  IDPool : List ℕ

/-- Observable actions of the manifold table, in the order the source
performs them: the three steps of removeManifold (lines 84-92), the pool
free, and the collision event triggers (lines 108-109, 174-175) whose payload
is a manifold object. -/
inductive TAction where
  | slotCleared (i : ℕ)
  | matrixCleared (low high : ℕ)
  | poolPushed (i : ℕ)
  | manifoldFreed (m : ManifoldState)
  | collisionStart (bodyId : ℕ) (m : ManifoldState)
  | collisionEnd (bodyId : ℕ) (m : ManifoldState)
deriving DecidableEq

/-- The pair canonicalization of registerContact (lines 157-166): order the
two body identifiers as (lowID, highID). -/
def pairKey (bodyA bodyB : BodyRef) : ℕ × ℕ :=
  if bodyA.id < bodyB.id then (bodyA.id, bodyB.id) else (bodyB.id, bodyA.id)

/-- ContactManifoldTable.prototype.addManifold (lines 65-75): take a slot
index from the free-list (JS `pop`, the last element) or extend the array,
record it in the matrix, and install a freshly pooled manifold.  Returns the
new table, the new manifold and its slot index. -/
def ContactManifoldTable.addManifold (t : TableState) (lowID highID : ℕ)
    (bodyA bodyB : BodyRef) : TableState × ManifoldState × ℕ :=
  let ip : ℕ × List ℕ := match t.IDPool.getLast? with
    | some i => (i, t.IDPool.dropLast)
    | none => (t.manifolds.length, t.IDPool)
  let index := ip.1
  let manifold := Manifold.reset lowID highID bodyA bodyB
  ({ t with
      manifolds := jsSet t.manifolds index (some manifold)
      collisionMatrix := fun l h =>
        if l = lowID ∧ h = highID then some index else t.collisionMatrix l h
      IDPool := ip.2 },
   manifold, index)

/-- ContactManifoldTable.prototype.registerContact (lines 156-181).  The
fresh pooled Contact `OMRequestContact().reset(bodyA, bodyB, collisionData)`
created inside `addContact` is the argument `c`.  In the absent-pair branch a
manifold is allocated, the contact added and collision-start is triggered on
both bodies with the manifold as payload; in the present-pair branch the
existing manifold first evicts any near-duplicate (`contains`) and then adds
the contact, with no events.  Looking up a null manifold slot would be a JS
TypeError. -/
def ContactManifoldTable.registerContact (t : TableState) (bodyA bodyB : BodyRef)
    (c : MContact) : Except JsError (TableState × List TAction) :=
  let key := pairKey bodyA bodyB
  match t.collisionMatrix key.1 key.2 with
  | none =>
      let r := ContactManifoldTable.addManifold t key.1 key.2 bodyA bodyB
      let m1 := (Manifold.addContact r.2.1 c).1
      Except.ok ({ r.1 with manifolds := jsSet r.1.manifolds r.2.2 (some m1) },
        [TAction.collisionStart bodyA.id m1, TAction.collisionStart bodyB.id m1])
  | some idx =>
      match jsGet t.manifolds idx with
      | none => Except.error JsError.typeError
      | some manifold =>
          let m1 := (Manifold.contains manifold c.data).1
          let m2 := (Manifold.addContact m1 c).1
          Except.ok ({ t with manifolds := jsSet t.manifolds idx (some m2) }, [])

/-- One iteration of the loop of ContactManifoldTable.prototype.update
(lines 100-112) at slot `i`: run Manifold.update; when the manifold does not
persist, removeManifold (null the slot at lines 87-91: clear matrix entry,
push the index on the free-list, free the manifold) and only then trigger
collision:end on both bodies with the freed manifold as payload. -/
def ContactManifoldTable.updateStep (t : TableState) (i : ℕ) : TableState × List TAction :=
  match jsGet t.manifolds i with
  | none => (t, [])
  | some manifold =>
      let r := Manifold.update manifold
      if r.2 then
        ({ t with manifolds := jsSet t.manifolds i (some r.1) }, [])
      else
        ({ t with
            manifolds := jsSet t.manifolds i none
            collisionMatrix := fun l h =>
              if l = r.1.lowID ∧ h = r.1.highID then none else t.collisionMatrix l h
            IDPool := t.IDPool ++ [i] },
         [TAction.slotCleared i, TAction.matrixCleared r.1.lowID r.1.highID,
          TAction.poolPushed i, TAction.manifoldFreed r.1,
          TAction.collisionEnd r.1.bodyA.id r.1, TAction.collisionEnd r.1.bodyB.id r.1])

/-- The slot loop of ContactManifoldTable.prototype.update, over a list of
slot indices, concatenating the emitted action traces in order. -/
def ContactManifoldTable.updateGo (t : TableState) : List ℕ → TableState × List TAction
  | [] => (t, [])
  | i :: rest =>
      let r := ContactManifoldTable.updateStep t i
      let r' := ContactManifoldTable.updateGo r.1 rest
      (r'.1, r.2 ++ r'.2)

/-- ContactManifoldTable.prototype.update (lines 100-112); the JS loop caches
`len = manifolds.length` once, and no iteration changes the length. -/
def ContactManifoldTable.update (t : TableState) : TableState × List TAction :=
  ContactManifoldTable.updateGo t (List.range t.manifolds.length)

/-- Manifold states reachable by the operations the table performs on a
manifold after `reset`: addContact, contains, update. -/
inductive ReachM : ManifoldState → Prop where
  | reset : ∀ lowID highID bodyA bodyB, ReachM (Manifold.reset lowID highID bodyA bodyB)
  | add : ∀ m c, ReachM m → ReachM (Manifold.addContact m c).1
  | containsStep : ∀ m d, ReachM m → ReachM (Manifold.contains m d).1
  | updateStep : ∀ m, ReachM m → ReachM (Manifold.update m).1

/-- Temporal property of a table action trace: every collision-end trigger is
preceded by the slot-clearing, matrix-clearing and pool-freeing of the very
manifold passed as the event payload. -/
def endAfterRemoval (acts : List TAction) : Prop :=
  ∀ j bid m, acts.get? j = some (TAction.collisionEnd bid m) →
    ∃ i k1 k2 k3, k1 < k2 ∧ k2 < k3 ∧ k3 < j ∧
      acts.get? k1 = some (TAction.slotCleared i) ∧
      acts.get? k2 = some (TAction.matrixCleared m.lowID m.highID) ∧
      acts.get? k3 = some (TAction.manifoldFreed m)

/-! Concrete sample inputs used by witnesses and counterexamples. -/

/-- Inert collision data (zero vectors) for capacity tests, where only object
identity matters. -/
def dummyData : CollisionData :=
  { normal := ⟨0, 0, 1⟩, localContactA := Vec3.zero, localContactB := Vec3.zero,
    worldContactA := Vec3.zero, worldContactB := Vec3.zero, penetration := 0 }

/-- Collision data of a concrete head-on contact: normal +z, bodyA lever arm
zero, bodyB lever arm (1,0,0). -/
def cCexData : CollisionData :=
  { normal := ⟨0, 0, 1⟩, localContactA := ⟨0, 0, 0⟩, localContactB := ⟨1, 0, 0⟩,
    worldContactA := Vec3.zero, worldContactB := Vec3.zero, penetration := 2 }

/-- A concrete contact state over `cCexData`: the tangent basis and effective
masses are exactly what `Contact.init` computes for that normal with unit
inverse masses and zero inverse inertia, accumulators zeroed as after
`Contact.update`. -/
def cCex : Contact :=
  { data := cCexData, tangent1 := ⟨0, 1, 0⟩, tangent2 := ⟨-1, 0, 0⟩,
    effNormalMass := 1/2, effTangentialMass1 := 1/2, effTangentialMass2 := 1/2,
    restitution := 0, friction := 1, velocityBias := 0,
    normalImpulse := 0, tangentImpulse1 := 0, tangentImpulse2 := 0,
    impulse := Vec3.zero, angImpulseA := Vec3.zero, angImpulseB := Vec3.zero }

def bodyACex : BodyDyn := { velocity := Vec3.zero, angularVelocity := Vec3.zero }

def bodyBCex : BodyDyn := { velocity := ⟨0, 0, -1⟩, angularVelocity := Vec3.zero }

def mkContact (i : ℕ) : MContact := { cid := i, data := dummyData }

def body0 : BodyRef := { id := 0, position := Vec3.zero }

def body1 : BodyRef := { id := 1, position := Vec3.zero }

def addC (c : MContact) (m : ManifoldState) : ManifoldState := (Manifold.addContact m c).1

/-- Four distinct contacts added to a fresh manifold, filling all four slots. -/
def manifold4 : ManifoldState :=
  addC (mkContact 4) (addC (mkContact 3) (addC (mkContact 2) (addC (mkContact 1)
    (Manifold.reset 0 1 body0 body1))))

/-- A fifth contact added to the full manifold. -/
def manifold5 : ManifoldState := addC (mkContact 5) manifold4

/-- A distance-constraint state with period 0, as the rigid branch of the
claim would require. -/
def distStatePeriod0 : DistanceState :=
  { length := 1, minLength := 0, period := 0, dampingRatio := 1/2,
    stiffness := 0, damping := 0, impulse := 0, distance := 0,
    velocityBias := 0, divisor := 0, normal := Vec3.zero }

/-- A distance-constraint state outside the slack zone (distance 1, minimum
length 0) with unit divisor and +x normal. -/
def dStC1 : DistanceState :=
  { length := 1, minLength := 0, period := 1/5, dampingRatio := 1/2,
    stiffness := 0, damping := 0, impulse := 0, distance := 1,
    velocityBias := 0, divisor := 1, normal := ⟨1, 0, 0⟩ }

/-- A distance-constraint state inside the slack zone: |distance| = 0 below
minLength = 1. -/
def dStC7 : DistanceState :=
  { length := 2, minLength := 1, period := 1/5, dampingRatio := 1/2,
    stiffness := 0, damping := 0, impulse := 3, distance := 0,
    velocityBias := 0, divisor := 1, normal := ⟨1, 0, 0⟩ }

/-- Collision data whose cached world point on bodyA is 100 units from the
origin while the local offset is zero. -/
def driftData : CollisionData :=
  { normal := ⟨0, 0, 1⟩, localContactA := Vec3.zero, localContactB := Vec3.zero,
    worldContactA := ⟨100, 0, 0⟩, worldContactB := Vec3.zero, penetration := 0 }

/-- A contact whose cached world point on bodyA has drifted 100 units from
the recomputed one. -/
def driftContact : MContact := { cid := 9, data := driftData }

/-- A manifold holding only `driftContact`; its single contact is removed by
`Manifold.update`, so the manifold does not persist. -/
def mDrift : ManifoldState :=
  { lowID := 0, highID := 1, bodyA := body0, bodyB := body1,
    contacts := [some driftContact], numContacts := 1, lru := 1 }

/-- The value of `mDrift` after `Manifold.update` has removed its contact. -/
def mDriftAfter : ManifoldState := { mDrift with contacts := [none], numContacts := 0 }

/-- A table holding `mDrift` in slot 0, registered under the pair (0, 1). -/
def tC10 : TableState :=
  { manifolds := [some mDrift],
    collisionMatrix := fun l h => if l = 0 ∧ h = 1 then some 0 else none,
    IDPool := [] }

/-- An empty manifold for the pair (0, 1). -/
def mC6 : ManifoldState := Manifold.reset 0 1 body0 body1

/-- A table with `mC6` already registered in slot 0 for the pair (0, 1). -/
def tC6 : TableState :=
  { manifolds := [some mC6],
    collisionMatrix := fun l h => if l = 0 ∧ h = 1 then some 0 else none,
    IDPool := [] }

def cC6 : MContact := mkContact 7

/-! Helper lemmas. -/

theorem clamp_mem (v lo hi : ℚ) (h : lo ≤ hi) : lo ≤ clamp v lo hi ∧ clamp v lo hi ≤ hi := by
  unfold clamp
  split_ifs with h1 h2
  · exact ⟨le_refl _, h⟩
  · exact ⟨h, le_refl _⟩
  · exact ⟨le_of_not_lt h1, le_of_not_lt h2⟩

theorem clamp_zero_zero (v : ℚ) : clamp v 0 0 = 0 := by
  unfold clamp
  split_ifs with h1 h2
  · rfl
  · rfl
  · exact le_antisymm (le_of_not_lt h2) (le_of_not_lt h1)

theorem resolve_fst_normalImpulse (c : Contact) (bA bB : BodyDyn) :
    ((Contact.resolve c bA bB).1).normalImpulse =
      max (c.normalImpulse +
        -(Vec3.dot (contactRelVel c bA bB) c.data.normal + c.velocityBias) * c.effNormalMass) 0 :=
  rfl

theorem resolve_fst_friction (c : Contact) (bA bB : BodyDyn) :
    ((Contact.resolve c bA bB).1).friction = c.friction := rfl

theorem resolve_fst_tangentImpulse1 (c : Contact) (bA bB : BodyDyn) :
    ((Contact.resolve c bA bB).1).tangentImpulse1 =
      clamp (c.tangentImpulse1 + -(Vec3.dot (contactRelVel c bA bB) c.tangent1) * c.effTangentialMass1)
        (-(c.friction * ((Contact.resolve c bA bB).1).normalImpulse))
        (c.friction * ((Contact.resolve c bA bB).1).normalImpulse) :=
  rfl

theorem resolve_fst_tangentImpulse2 (c : Contact) (bA bB : BodyDyn) :
    ((Contact.resolve c bA bB).1).tangentImpulse2 =
      clamp (c.tangentImpulse2 + -(Vec3.dot (contactRelVel c bA bB) c.tangent2) * c.effTangentialMass2)
        (-(c.friction * ((Contact.resolve c bA bB).1).normalImpulse))
        (c.friction * ((Contact.resolve c bA bB).1).normalImpulse) :=
  rfl

theorem resolve_normalImpulse_nonneg (c : Contact) (bA bB : BodyDyn) :
    0 ≤ ((Contact.resolve c bA bB).1).normalImpulse :=
  le_max_right _ _

theorem resolveSeq_nonneg_aux (steps : List (BodyDyn × BodyDyn)) :
    ∀ c : Contact, 0 ≤ c.normalImpulse → 0 ≤ (Contact.resolveSeq c steps).normalImpulse := by
  induction steps with
  | nil => exact fun c h => h
  | cons s rest ih => exact fun c _ => ih _ (resolve_normalImpulse_nonneg c s.1 s.2)

/-! Claim theorems. -/

/-- Claim C1 (corrected).  For every `Contact.resolve` and `Distance.resolve`
call, the linear impulse applied to bodyA is the exact negation of the linear
impulse applied to bodyB.  `Distance.resolve` applies no angular impulses at
all.  `Contact.resolve`'s angular impulses are not negations of each other in
general: with `P` the total linear impulse applied to bodyB, the angular
impulse applied to bodyA is `−(rA × P)` and the one applied to bodyB is
`rB × P`, each taken about that body's own lever arm. -/
theorem resolve_impulses_opposed :
    (∀ (c : Contact) (bodyA bodyB : BodyDyn),
      (Contact.resolve c bodyA bodyB).2.linA = Vec3.invert (Contact.resolve c bodyA bodyB).2.linB ∧
      (Contact.resolve c bodyA bodyB).2.angA =
        Vec3.invert (Vec3.cross c.data.localContactA (Contact.resolve c bodyA bodyB).2.linB) ∧
      (Contact.resolve c bodyA bodyB).2.angB =
        Vec3.cross c.data.localContactB (Contact.resolve c bodyA bodyB).2.linB) ∧
    (∀ (st : DistanceState) (v1 v2 : Vec3) (pB pA : Vec3),
      (Distance.resolve st v1 v2).2 = some (pB, pA) → pA = Vec3.invert pB) := by
  constructor
  · exact fun c bodyA bodyB => ⟨rfl, rfl, rfl⟩
  · intro st v1 v2 pB pA h
    by_cases hd : |st.distance| < st.minLength
    · simp [Distance.resolve, hd] at h
    · simp only [Distance.resolve, if_neg hd, Option.some.injEq, Prod.mk.injEq] at h
      rw [← h.2, ← h.1]

/-- Witness for claim C1: a concrete slack-free `Distance.resolve` call and
its impulse pair, with the theorem applied to it. -/
theorem resolve_impulses_opposed_witness :
    (Distance.resolve dStC1 Vec3.zero ⟨1, 0, 0⟩).2 = some (⟨-1, 0, 0⟩, ⟨1, 0, 0⟩) ∧
    (⟨1, 0, 0⟩ : Vec3) = Vec3.invert ⟨-1, 0, 0⟩ := by
  have h : (Distance.resolve dStC1 Vec3.zero ⟨1, 0, 0⟩).2 = some (⟨-1, 0, 0⟩, ⟨1, 0, 0⟩) := by
    norm_num [Distance.resolve, dStC1, Vec3.dot, Vec3.subtract, Vec3.scale, Vec3.invert, Vec3.zero]
  exact ⟨h, resolve_impulses_opposed.2 dStC1 Vec3.zero ⟨1, 0, 0⟩ _ _ h⟩

/-- Counterexample for claim C1 as stated: at a concrete resolve call the
angular impulse applied to bodyA is not the negation of the angular impulse
applied to bodyB (here they are `(0,0,0)` and `(0,−1/2,0)`). -/
theorem resolve_angular_impulse_not_negated :
    ¬ ((Contact.resolve cCex bodyACex bodyBCex).2.angA =
        Vec3.invert ((Contact.resolve cCex bodyACex bodyBCex).2.angB)) := by
  norm_num [Contact.resolve, contactRelVel, cCex, cCexData, bodyACex, bodyBCex,
    Vec3.add, Vec3.subtract, Vec3.scale, Vec3.dot, Vec3.cross, Vec3.invert, Vec3.zero, clamp]

/-- Claim C2 (code bug).  `Distance.update` never consults `this.period`: the
branch at Distance.js line 90 reads the free identifier `period`, which is
declared nowhere in the repository, so under `'use strict'` every call throws
a ReferenceError before any of gamma, beta or the cached solver state is
computed — for every input, including a constraint whose `period` property is
zero.  The rigid branch (gamma = 0, beta = 1) is unreachable. -/
theorem distance_update_reads_undeclared_period (dt sep : ℚ) (st : DistanceState)
    (p1 p2 : Vec3) (w1 w2 : ℚ) :
    Distance.update none dt sep st p1 p2 w1 w2 = Except.error JsError.referenceError := rfl

/-- Claim C3.  Starting from a zeroed accumulator (as left by `update` or
`reset`), the accumulated normal impulse is nonnegative after any sequence of
`resolve` calls, whatever body velocities each pass observes. -/
theorem contact_normal_impulse_nonneg (c : Contact) (steps : List (BodyDyn × BodyDyn))
    (h : c.normalImpulse = 0) :
    0 ≤ (Contact.resolveSeq c steps).normalImpulse :=
  resolveSeq_nonneg_aux steps c (le_of_eq h.symm)

/-- Witness for claim C3 at a concrete contact and a two-pass sequence. -/
theorem contact_normal_impulse_nonneg_witness :
    cCex.normalImpulse = 0 ∧
    0 ≤ (Contact.resolveSeq cCex [(bodyACex, bodyBCex), (bodyACex, bodyBCex)]).normalImpulse :=
  ⟨rfl, contact_normal_impulse_nonneg cCex [(bodyACex, bodyBCex), (bodyACex, bodyBCex)] rfl⟩

/-- Claim C4.  After every `Contact.resolve` call (for a nonnegative cached
friction coefficient) both stored tangential accumulators are bounded in
magnitude by friction times the stored normal accumulator; in particular,
when the new normal impulse is 0 the friction cone collapses and both
tangential accumulators are clamped to 0 in that same pass. -/
theorem contact_friction_cone (c : Contact) (bA bB : BodyDyn) (hf : 0 ≤ c.friction) :
    |((Contact.resolve c bA bB).1).tangentImpulse1| ≤
      ((Contact.resolve c bA bB).1).friction * ((Contact.resolve c bA bB).1).normalImpulse ∧
    |((Contact.resolve c bA bB).1).tangentImpulse2| ≤
      ((Contact.resolve c bA bB).1).friction * ((Contact.resolve c bA bB).1).normalImpulse ∧
    (((Contact.resolve c bA bB).1).normalImpulse = 0 →
      ((Contact.resolve c bA bB).1).tangentImpulse1 = 0 ∧
      ((Contact.resolve c bA bB).1).tangentImpulse2 = 0) := by
  have hN : 0 ≤ ((Contact.resolve c bA bB).1).normalImpulse := resolve_normalImpulse_nonneg c bA bB
  have hMF : 0 ≤ c.friction * ((Contact.resolve c bA bB).1).normalImpulse := mul_nonneg hf hN
  have hle : -(c.friction * ((Contact.resolve c bA bB).1).normalImpulse) ≤
      c.friction * ((Contact.resolve c bA bB).1).normalImpulse :=
    neg_le_self hMF
  refine ⟨?_, ?_, ?_⟩
  · rw [resolve_fst_tangentImpulse1, resolve_fst_friction]
    have h := clamp_mem (c.tangentImpulse1 +
      -(Vec3.dot (contactRelVel c bA bB) c.tangent1) * c.effTangentialMass1) _ _ hle
    exact abs_le.mpr ⟨h.1, h.2⟩
  · rw [resolve_fst_tangentImpulse2, resolve_fst_friction]
    have h := clamp_mem (c.tangentImpulse2 +
      -(Vec3.dot (contactRelVel c bA bB) c.tangent2) * c.effTangentialMass2) _ _ hle
    exact abs_le.mpr ⟨h.1, h.2⟩
  · intro h0
    rw [resolve_fst_tangentImpulse1, resolve_fst_tangentImpulse2, h0]
    rw [mul_zero, neg_zero]
    exact ⟨clamp_zero_zero _, clamp_zero_zero _⟩

/-- Witness for claim C4 at a concrete contact with friction 1. -/
theorem contact_friction_cone_witness :
    (0 : ℚ) ≤ cCex.friction ∧
    |((Contact.resolve cCex bodyACex bodyBCex).1).tangentImpulse1| ≤
      ((Contact.resolve cCex bodyACex bodyBCex).1).friction *
        ((Contact.resolve cCex bodyACex bodyBCex).1).normalImpulse :=
  ⟨by norm_num [cCex], (contact_friction_cone cCex bodyACex bodyBCex (by norm_num [cCex])).1⟩

/-- Claim C7.  `Distance.resolve` is a no-op in the slack zone: when the
cached |distance| is below minLength it applies no impulse to either body and
returns the state entirely unchanged. -/
theorem distance_resolve_slack_noop (st : DistanceState) (v1 v2 : Vec3)
    (h : |st.distance| < st.minLength) :
    Distance.resolve st v1 v2 = (st, none) := by
  simp [Distance.resolve, h]

/-- Witness for claim C7 at a concrete in-slack state. -/
theorem distance_resolve_slack_noop_witness :
    |dStC7.distance| < dStC7.minLength ∧
    Distance.resolve dStC7 ⟨2, 0, 0⟩ ⟨0, 1, 0⟩ = (dStC7, none) :=
  ⟨by norm_num [dStC7], distance_resolve_slack_noop dStC7 ⟨2, 0, 0⟩ ⟨0, 1, 0⟩ (by norm_num [dStC7])⟩

/-- Claim C9.  `Contact.update` forces restitution to zero in the bias when
the approach speed is below the velocity threshold 20, sets the velocity bias
to `−beta·max(penetration−slop, 0)/dt + restitution·approachSpeed` (beta 0.15,
slop 1.5), warm-starts with a quarter of the previous step's accumulated
linear and angular impulses (positive to bodyB, negated linear to bodyA), and
resets all scalar and vector accumulators to zero. -/
theorem contact_update_prep (c : Contact) (bodyA bodyB : BodyDyn) (dt : ℚ) :
    ((Contact.update c bodyA bodyB dt).1).velocityBias =
      (-(15 / 100)) * max (c.data.penetration - 3 / 2) 0 / dt +
        (if |contactSpeedOf c bodyA bodyB| < 20 then 0 else c.restitution) *
          contactSpeedOf c bodyA bodyB ∧
    (Contact.update c bodyA bodyB dt).2.linB = Vec3.scale c.impulse (1 / 4) ∧
    (Contact.update c bodyA bodyB dt).2.linA = Vec3.invert (Vec3.scale c.impulse (1 / 4)) ∧
    (Contact.update c bodyA bodyB dt).2.angB = Vec3.scale c.angImpulseB (1 / 4) ∧
    (Contact.update c bodyA bodyB dt).2.angA = Vec3.scale c.angImpulseA (1 / 4) ∧
    ((Contact.update c bodyA bodyB dt).1).normalImpulse = 0 ∧
    ((Contact.update c bodyA bodyB dt).1).tangentImpulse1 = 0 ∧
    ((Contact.update c bodyA bodyB dt).1).tangentImpulse2 = 0 ∧
    ((Contact.update c bodyA bodyB dt).1).impulse = Vec3.zero ∧
    ((Contact.update c bodyA bodyB dt).1).angImpulseA = Vec3.zero ∧
    ((Contact.update c bodyA bodyB dt).1).angImpulseB = Vec3.zero :=
  ⟨rfl, rfl, rfl, rfl, rfl, rfl, rfl, rfl, rfl, rfl, rfl⟩

/-! List-level lemmas about the JS array model. -/

theorem jsGet_jsSet_self {α : Type} (i : ℕ) (v : Option α) :
    ∀ l : List (Option α), jsGet (jsSet l i v) i = v := by
  induction i with
  | zero => intro l; cases l <;> rfl
  | succ n ih =>
      intro l
      cases l with
      | nil => exact ih []
      | cons o rest => exact ih rest

theorem length_jsSet {α : Type} (v : Option α) :
    ∀ (i : ℕ) (l : List (Option α)),
      (jsSet l i v).length = if i < l.length then l.length else i + 1 := by
  intro i
  induction i with
  | zero =>
      intro l
      cases l with
      | nil => simp [jsSet]
      | cons o rest => simp [jsSet]
  | succ n ih =>
      intro l
      cases l with
      | nil =>
          simp only [jsSet, List.length_cons, ih, List.length_nil]
          split_ifs <;> omega
      | cons o rest =>
          simp only [jsSet, List.length_cons, ih]
          split_ifs <;> omega

theorem exists_jsGet_of_countP_pos {α : Type} :
    ∀ l : List (Option α), 0 < liveCountN l → ∃ i a, jsGet l i = some a := by
  intro l
  induction l with
  | nil => intro h; simp [liveCountN] at h
  | cons o rest ih =>
      intro h
      cases o with
      | some a => exact ⟨0, a, rfl⟩
      | none =>
          have hr : 0 < liveCountN rest := by
            simpa [liveCountN, List.countP_cons] using h
          obtain ⟨i, a, ha⟩ := ih hr
          exact ⟨i + 1, a, ha⟩

theorem countP_pos_of_jsGet {α : Type} :
    ∀ (l : List (Option α)) (i : ℕ) (a : α), jsGet l i = some a → 0 < liveCountN l := by
  intro l
  induction l with
  | nil => intro i a h; cases i <;> simp [jsGet] at h
  | cons o rest ih =>
      intro i a h
      cases i with
      | zero =>
          cases o with
          | none => simp [jsGet] at h
          | some b => simp [liveCountN, List.countP_cons]
      | succ n =>
          have hr := ih n a h
          simp only [liveCountN, List.countP_cons] at hr ⊢
          omega

/-! Manifold-level helper lemmas. -/

theorem addContact_lru (m : ManifoldState) (c : MContact) :
    ((Manifold.addContact m c).1).lru = (m.lru + 1) % 4 := rfl

theorem addContact_length_le (m : ManifoldState) (c : MContact)
    (hlru : m.lru < 4) (hlen : m.contacts.length ≤ 4) :
    ((Manifold.addContact m c).1).contacts.length ≤ 4 := by
  unfold Manifold.addContact Manifold.removeContact
  cases h : jsGet m.contacts m.lru with
  | none => simp only [h, length_jsSet]; split_ifs <;> omega
  | some c' => simp only [h, length_jsSet]; split_ifs <;> omega

theorem findMatchIdx_lt (d : CollisionData) :
    ∀ (l : List (Option MContact)) (k i : ℕ), findMatchIdx d l k = some i → i < k + l.length := by
  intro l
  induction l with
  | nil => intro k i h; simp [findMatchIdx] at h
  | cons o rest ih =>
      intro k i h
      cases o with
      | none =>
          have hi := ih (k + 1) i (by simpa [findMatchIdx] using h)
          simp only [List.length_cons]
          omega
      | some c =>
          by_cases hm : containsMatch d c
          · have hk : k = i := by simpa [findMatchIdx, hm] using h
            simp only [List.length_cons]
            omega
          · have hi := ih (k + 1) i (by simpa [findMatchIdx, hm] using h)
            simp only [List.length_cons]
            omega

theorem contains_lru (m : ManifoldState) (d : CollisionData) :
    ((Manifold.contains m d).1).lru = m.lru := by
  unfold Manifold.contains
  cases findMatchIdx d m.contacts 0 <;> rfl

theorem contains_length_le (m : ManifoldState) (d : CollisionData)
    (hlen : m.contacts.length ≤ 4) :
    ((Manifold.contains m d).1).contacts.length ≤ 4 := by
  unfold Manifold.contains
  cases h : findMatchIdx d m.contacts 0 with
  | none => simpa using hlen
  | some i =>
      have hi : i < m.contacts.length := by simpa using findMatchIdx_lt d m.contacts 0 i h
      simp only [Manifold.removeContact, length_jsSet]
      split_ifs
      omega

theorem updateContactsLoop_length (posA posB : Vec3) :
    ∀ l, ((updateContactsLoop posA posB l).1).length = l.length := by
  intro l
  induction l with
  | nil => rfl
  | cons o rest ih =>
      cases o with
      | none => simp only [updateContactsLoop, List.length_cons, ih]
      | some c =>
          by_cases h : contactShouldRemove posA posB c <;>
            simp only [updateContactsLoop, h, if_true, if_false, List.length_cons, ih]

theorem manifoldUpdate_lru (m : ManifoldState) : ((Manifold.update m).1).lru = m.lru := rfl

theorem manifoldUpdate_length (m : ManifoldState) :
    ((Manifold.update m).1).contacts.length = m.contacts.length :=
  updateContactsLoop_length _ _ _

/-- Invariant of reachable manifold states: the LRU cursor stays below 4 and
the contact array never grows past 4 slots. -/
theorem reach_inv (m : ManifoldState) (h : ReachM m) : m.lru < 4 ∧ m.contacts.length ≤ 4 := by
  induction h with
  | reset lowID highID bodyA bodyB =>
      exact ⟨by norm_num [Manifold.reset], by norm_num [Manifold.reset]⟩
  | add m c _ ih =>
      refine ⟨?_, addContact_length_le m c ih.1 ih.2⟩
      rw [addContact_lru]
      exact Nat.mod_lt _ (by norm_num)
  | containsStep m d _ ih =>
      refine ⟨?_, contains_length_le m d ih.2⟩
      rw [contains_lru]
      exact ih.1
  | updateStep m _ ih =>
      refine ⟨?_, ?_⟩
      · rw [manifoldUpdate_lru]; exact ih.1
      · rw [manifoldUpdate_length]; exact ih.2

/-- Claim C5.  A reachable manifold never holds more than 4 live contacts;
`addContact` evicts (frees) whatever occupies the current LRU cursor slot,
writes the new contact there and advances the cursor modulo 4; concretely,
adding a fifth contact to a freshly filled manifold evicts the first-added
(oldest) contact and leaves the other four. -/
theorem manifold_capacity_lru (m : ManifoldState) (c : MContact) (h : ReachM m) :
    liveCountN m.contacts ≤ 4 ∧
    (Manifold.addContact m c).2 = jsGet m.contacts m.lru ∧
    jsGet ((Manifold.addContact m c).1).contacts m.lru = some c ∧
    ((Manifold.addContact m c).1).lru = (m.lru + 1) % 4 ∧
    manifold5.contacts =
      [some (mkContact 5), some (mkContact 2), some (mkContact 3), some (mkContact 4)] ∧
    (Manifold.addContact manifold4 (mkContact 5)).2 = some (mkContact 1) := by
  have inv := reach_inv m h
  refine ⟨le_trans (List.countP_le_length _) inv.2, rfl,
    jsGet_jsSet_self m.lru (some c) _, rfl, ?_, ?_⟩
  · norm_num [manifold5, manifold4, addC, Manifold.addContact, Manifold.removeContact,
      Manifold.reset, jsGet, jsSet]
  · norm_num [manifold4, addC, Manifold.addContact, Manifold.removeContact,
      Manifold.reset, jsGet, jsSet]

/-- Witness for claim C5: the filled four-contact manifold is reachable, and
the theorem applies to it. -/
theorem manifold_capacity_lru_witness :
    ReachM manifold4 ∧ liveCountN manifold4.contacts ≤ 4 := by
  have hr : ReachM manifold4 :=
    ReachM.add _ _ (ReachM.add _ _ (ReachM.add _ _ (ReachM.add _ _
      (ReachM.reset 0 1 body0 body1))))
  exact ⟨hr, (manifold_capacity_lru manifold4 (mkContact 5) hr).1⟩

theorem updateContactsLoop_get (posA posB : Vec3) :
    ∀ (l : List (Option MContact)) (i : ℕ),
      jsGet ((updateContactsLoop posA posB l).1) i =
        match jsGet l i with
        | none => none
        | some c => if contactShouldRemove posA posB c then none else some c := by
  intro l
  induction l with
  | nil => intro i; rfl
  | cons o rest ih =>
      intro i
      cases o with
      | none =>
          cases i with
          | zero => rfl
          | succ n => exact ih n
      | some c =>
          by_cases h : contactShouldRemove posA posB c
          · cases i with
            | zero => simp [updateContactsLoop, h, jsGet]
            | succ n =>
                have hr := ih n
                simpa [updateContactsLoop, h, jsGet] using hr
          · cases i with
            | zero => simp [updateContactsLoop, h, jsGet]
            | succ n =>
                have hr := ih n
                simpa [updateContactsLoop, h, jsGet] using hr

theorem updateContactsLoop_count (posA posB : Vec3) :
    ∀ l, liveCountN ((updateContactsLoop posA posB l).1) + (updateContactsLoop posA posB l).2 =
      liveCountN l := by
  intro l
  induction l with
  | nil => rfl
  | cons o rest ih =>
      cases o with
      | none =>
          simp [updateContactsLoop, liveCountN, List.countP_cons] at ih ⊢
          omega
      | some c =>
          by_cases h : contactShouldRemove posA posB c <;>
            · simp [updateContactsLoop, h, liveCountN, List.countP_cons] at ih ⊢
              omega

/-- Claim C8.  `Manifold.update` recomputes each contact's current world
position as body position plus local offset and (1) removes every contact
whose cached world point has drifted at least THRESHOLD away in either body's
frame or whose separation along the normal is non-penetrating (positive dot),
(2) keeps every other contact unchanged in its slot, and (3) — provided the
stored count is consistent with the array, as on every reachable state —
returns true exactly when at least one contact remains. -/
theorem manifold_update_drift_invalidation (m : ManifoldState)
    (h : m.numContacts = (liveCountN m.contacts : ℤ)) :
    (∀ i c, jsGet m.contacts i = some c →
      contactShouldRemove m.bodyA.position m.bodyB.position c →
      jsGet ((Manifold.update m).1).contacts i = none) ∧
    (∀ i c, jsGet m.contacts i = some c →
      ¬ contactShouldRemove m.bodyA.position m.bodyB.position c →
      jsGet ((Manifold.update m).1).contacts i = some c) ∧
    ((Manifold.update m).2 = true ↔
      ∃ i c, jsGet ((Manifold.update m).1).contacts i = some c) := by
  have hcnt := updateContactsLoop_count m.bodyA.position m.bodyB.position m.contacts
  refine ⟨?_, ?_, ?_⟩
  · intro i c hget hcond
    have hg := updateContactsLoop_get m.bodyA.position m.bodyB.position m.contacts i
    rw [hget] at hg
    simpa [hcond] using hg
  · intro i c hget hcond
    have hg := updateContactsLoop_get m.bodyA.position m.bodyB.position m.contacts i
    rw [hget] at hg
    simpa [hcond] using hg
  · have hcnt' : (liveCountN ((updateContactsLoop m.bodyA.position m.bodyB.position
        m.contacts).1) : ℤ) +
        ((updateContactsLoop m.bodyA.position m.bodyB.position m.contacts).2 : ℤ) =
        (liveCountN m.contacts : ℤ) := by exact_mod_cast hcnt
    constructor
    · intro hp
      have hz : m.numContacts -
          ((updateContactsLoop m.bodyA.position m.bodyB.position m.contacts).2 : ℤ) ≠ 0 :=
        of_decide_eq_true hp
      have hpos : 0 < liveCountN ((updateContactsLoop m.bodyA.position m.bodyB.position
          m.contacts).1) := by omega
      exact exists_jsGet_of_countP_pos _ hpos
    · rintro ⟨i, c, hc⟩
      have hpos : 0 < liveCountN ((updateContactsLoop m.bodyA.position m.bodyB.position
          m.contacts).1) := countP_pos_of_jsGet _ i c hc
      apply decide_eq_true
      show m.numContacts -
        ((updateContactsLoop m.bodyA.position m.bodyB.position m.contacts).2 : ℤ) ≠ 0
      omega

/-- Witness for claim C8: a manifold with a consistent count and one badly
drifted contact, with the theorem's return-value characterization applied. -/
theorem manifold_update_drift_invalidation_witness :
    mDrift.numContacts = (liveCountN mDrift.contacts : ℤ) ∧
    ((Manifold.update mDrift).2 = true ↔
      ∃ i c, jsGet ((Manifold.update mDrift).1).contacts i = some c) := by
  have h : mDrift.numContacts = (liveCountN mDrift.contacts : ℤ) := by
    norm_num [mDrift, liveCountN, List.countP_cons, List.countP_nil]
  exact ⟨h, (manifold_update_drift_invalidation mDrift h).2.2⟩

theorem pairKey_comm (bodyA bodyB : BodyRef) : pairKey bodyA bodyB = pairKey bodyB bodyA := by
  unfold pairKey
  rcases lt_trichotomy bodyA.id bodyB.id with h | h | h
  · rw [if_pos h, if_neg (by omega)]
  · rw [if_neg (by omega), if_neg (by omega), h]
  · rw [if_neg (by omega), if_pos h]

theorem pairKey_minmax (bodyA bodyB : BodyRef) :
    pairKey bodyA bodyB = (min bodyA.id bodyB.id, max bodyA.id bodyB.id) := by
  unfold pairKey
  split_ifs with h <;> simp [Prod.ext_iff] <;> omega

/-- Claim C6.  `registerContact` canonicalizes the body pair by identifier
order, so both argument orders use the key (min id, max id) and hence resolve
to the same manifold slot; when the pair is already present (the matrix maps
the key to a populated slot `i`), registration in either argument order
rewrites only slot `i` — allocating no manifold, touching neither the matrix
nor the free-list — and emits no collision-start events (the action trace is
empty). -/
theorem register_contact_pair_canonical (t : TableState) (bodyA bodyB : BodyRef)
    (c : MContact) (i : ℕ) (m : ManifoldState)
    (hm : t.collisionMatrix (pairKey bodyA bodyB).1 (pairKey bodyA bodyB).2 = some i)
    (hs : jsGet t.manifolds i = some m) :
    pairKey bodyA bodyB = (min bodyA.id bodyB.id, max bodyA.id bodyB.id) ∧
    pairKey bodyA bodyB = pairKey bodyB bodyA ∧
    (∃ m1, ContactManifoldTable.registerContact t bodyA bodyB c =
      Except.ok ({ t with manifolds := jsSet t.manifolds i (some m1) }, [])) ∧
    (∃ m2, ContactManifoldTable.registerContact t bodyB bodyA c =
      Except.ok ({ t with manifolds := jsSet t.manifolds i (some m2) }, [])) := by
  refine ⟨pairKey_minmax bodyA bodyB, pairKey_comm bodyA bodyB, ?_, ?_⟩
  · refine ⟨(Manifold.addContact (Manifold.contains m c.data).1 c).1, ?_⟩
    unfold ContactManifoldTable.registerContact
    simp only [hm, hs]
  · refine ⟨(Manifold.addContact (Manifold.contains m c.data).1 c).1, ?_⟩
    unfold ContactManifoldTable.registerContact
    rw [← pairKey_comm bodyA bodyB]
    simp only [hm, hs]

/-- Witness for claim C6: a concrete table with the pair (0, 1) already
registered in slot 0, with the theorem's same-argument-order conclusion
applied. -/
theorem register_contact_pair_canonical_witness :
    tC6.collisionMatrix (pairKey body0 body1).1 (pairKey body0 body1).2 = some 0 ∧
    (∃ m1, ContactManifoldTable.registerContact tC6 body0 body1 cC6 =
      Except.ok ({ tC6 with manifolds := jsSet tC6.manifolds 0 (some m1) }, [])) := by
  have h1 : tC6.collisionMatrix (pairKey body0 body1).1 (pairKey body0 body1).2 = some 0 := by
    norm_num [tC6, pairKey, body0, body1]
  have h2 : jsGet tC6.manifolds 0 = some mC6 := rfl
  exact ⟨h1, (register_contact_pair_canonical tC6 body0 body1 cC6 0 mC6 h1 h2).2.2.1⟩

theorem endAfterRemoval_nil : endAfterRemoval [] := by
  intro j bid m h
  simp [List.get?] at h

theorem endAfterRemoval_append {l1 l2 : List TAction}
    (h1 : endAfterRemoval l1) (h2 : endAfterRemoval l2) : endAfterRemoval (l1 ++ l2) := by
  intro j bid m hj
  by_cases hlt : j < l1.length
  · rw [List.get?_append hlt] at hj
    obtain ⟨i, k1, k2, k3, h12, h23, h3j, g1, g2, g3⟩ := h1 j bid m hj
    refine ⟨i, k1, k2, k3, h12, h23, h3j, ?_, ?_, ?_⟩
    · rw [List.get?_append (by omega)]; exact g1
    · rw [List.get?_append (by omega)]; exact g2
    · rw [List.get?_append (by omega)]; exact g3
  · push_neg at hlt
    rw [List.get?_append_right hlt] at hj
    obtain ⟨i, k1, k2, k3, h12, h23, h3j, g1, g2, g3⟩ := h2 _ bid m hj
    refine ⟨i, l1.length + k1, l1.length + k2, l1.length + k3,
      by omega, by omega, by omega, ?_, ?_, ?_⟩
    · rw [List.get?_append_right (by omega)]
      simpa [Nat.add_sub_cancel_left] using g1
    · rw [List.get?_append_right (by omega)]
      simpa [Nat.add_sub_cancel_left] using g2
    · rw [List.get?_append_right (by omega)]
      simpa [Nat.add_sub_cancel_left] using g3

theorem endAfterRemoval_updateStep (t : TableState) (i : ℕ) :
    endAfterRemoval (ContactManifoldTable.updateStep t i).2 := by
  unfold ContactManifoldTable.updateStep
  cases hg : jsGet t.manifolds i with
  | none => exact endAfterRemoval_nil
  | some manifold =>
      cases hp : (Manifold.update manifold).2 with
      | true => simp only [hp, if_true]; exact endAfterRemoval_nil
      | false =>
          simp only [hp, if_false, Bool.false_eq_true]
          intro j bid m hj
          rcases j with _ | _ | _ | _ | _ | _ | n
          · simp [List.get?] at hj
          · simp [List.get?] at hj
          · simp [List.get?] at hj
          · simp [List.get?] at hj
          · simp only [List.get?, Option.some.injEq, TAction.collisionEnd.injEq] at hj
            obtain ⟨-, hm⟩ := hj
            subst hm
            exact ⟨i, 0, 1, 3, by omega, by omega, by omega, rfl, rfl, rfl⟩
          · simp only [List.get?, Option.some.injEq, TAction.collisionEnd.injEq] at hj
            obtain ⟨-, hm⟩ := hj
            subst hm
            exact ⟨i, 0, 1, 3, by omega, by omega, by omega, rfl, rfl, rfl⟩
          · simp [List.get?] at hj

theorem endAfterRemoval_updateGo (idxs : List ℕ) :
    ∀ t : TableState, endAfterRemoval (ContactManifoldTable.updateGo t idxs).2 := by
  induction idxs with
  | nil => intro t; exact endAfterRemoval_nil
  | cons i rest ih =>
      intro t
      exact endAfterRemoval_append (endAfterRemoval_updateStep t i)
        (ih (ContactManifoldTable.updateStep t i).1)

/-- Claim C10.  In the action trace of `ContactManifoldTable.update`, every
collision-end trigger is preceded (strictly earlier in the trace) by the
nulling of the manifold's slot, the clearing of its matrix entry and the
freeing of the manifold back to the pool, and the manifold passed as the
event payload is exactly the freed one. -/
theorem collision_end_after_removal (t : TableState) (j bid : ℕ) (m : ManifoldState)
    (h : ((ContactManifoldTable.update t).2).get? j = some (TAction.collisionEnd bid m)) :
    ∃ i k1 k2 k3, k1 < k2 ∧ k2 < k3 ∧ k3 < j ∧
      ((ContactManifoldTable.update t).2).get? k1 = some (TAction.slotCleared i) ∧
      ((ContactManifoldTable.update t).2).get? k2 =
        some (TAction.matrixCleared m.lowID m.highID) ∧
      ((ContactManifoldTable.update t).2).get? k3 = some (TAction.manifoldFreed m) :=
  endAfterRemoval_updateGo (List.range t.manifolds.length) t j bid m h

/-- Witness for claim C10: updating a table whose only manifold has lost all
contacts emits its collision-end triggers at trace positions 4 and 5, after
the removal actions; the theorem applied at position 4. -/
theorem collision_end_after_removal_witness :
    ((ContactManifoldTable.update tC10).2).get? 4 =
      some (TAction.collisionEnd 0 mDriftAfter) ∧
    (∃ i k1 k2 k3, k1 < k2 ∧ k2 < k3 ∧ k3 < 4 ∧
      ((ContactManifoldTable.update tC10).2).get? k1 = some (TAction.slotCleared i) ∧
      ((ContactManifoldTable.update tC10).2).get? k2 =
        some (TAction.matrixCleared mDriftAfter.lowID mDriftAfter.highID) ∧
      ((ContactManifoldTable.update tC10).2).get? k3 =
        some (TAction.manifoldFreed mDriftAfter)) := by
  have h : ((ContactManifoldTable.update tC10).2).get? 4 =
      some (TAction.collisionEnd 0 mDriftAfter) := by
    norm_num [ContactManifoldTable.update, ContactManifoldTable.updateGo,
      ContactManifoldTable.updateStep, Manifold.update, updateContactsLoop,
      contactShouldRemove, THRESHOLD, tC10, mDrift, mDriftAfter, driftContact, driftData,
      body0, body1, jsGet, jsSet, Vec3.add, Vec3.subtract, Vec3.dot, Vec3.normSq, Vec3.zero,
      List.range_succ, List.get?]
  exact ⟨h, collision_end_after_removal tC10 4 0 mDriftAfter h⟩

-- END OF THEOREMS
